import Mathlib

/-!
Verification of the IPv6 probe engine (src/tracing/net/ipv6.rs).

The dispatch and receive logic is embedded from the source file directly.
Packet buffers are byte lists (each byte a Nat). The packet codecs, the
checksum engine and the error enumeration live outside the provided
sources, so they are modelled from the spec (sections 4.1, 4.2, 6 and 7)
and the RFC wire layouts the spec mandates.
-/

namespace TrippyIpv6

/-- High byte of a 16-bit big-endian value. -/
def hi (v : Nat) : Nat := v / 256 % 256

/-- Low byte of a 16-bit big-endian value. -/
def lo (v : Nat) : Nat := v % 256

/-- Big-endian encoding of a 16-bit value as two bytes. -/
def be16 (v : Nat) : List Nat := [hi v, lo v]

/-- Read a 16-bit big-endian field at byte offset i of a buffer. -/
def get16 (l : List Nat) (i : Nat) : Nat := l.getD i 0 * 256 + l.getD (i + 1) 0

/-- Propagate an error, apply a function to a success: the effect of the
source's map on a fallible result. -/
def exMap (f : α → β) : Except e α → Except e β
  | .error x => .error x
  | .ok a => .ok (f a)

/-- Propagate an error, continue on a success: the effect of the
source's question-mark operator. -/
def exBind : Except e α → (α → Except e β) → Except e β
  | .error x, _ => .error x
  | .ok a, f => f a

/-- RFC 1071 word sum: fold a byte sequence into 16-bit big-endian words
and add them as plain naturals; a trailing odd byte is padded on the
right with zero, so it contributes as a high byte. -/
def sumWords : List Nat → Nat
  | [] => 0
  | [a] => a * 256
  | a :: b :: rest => a * 256 + b + sumWords rest

/-- Modelled from the spec: the 16-bit one's-complement sum of a plain
natural word total (checksum engine, spec section 4.2, not under src).
The end-around-carry loop is given here in closed form; the theorems
foldCarry_small and foldCarry_carry show that this closed form satisfies
exactly the recurrence the carry-folding loop computes. -/
def foldCarry (s : Nat) : Nat :=
  if s = 0 then 0 else if s % 65535 = 0 then 65535 else s % 65535

/-! ## Data model

Types from src/tracing/types.rs and src/tracing/mod.rs; those files are
not under src, so the shapes follow the spec's data model (section 3):
Probe carries a 16-bit sequence and an 8-bit ttl, PortDirection is the
four-variant tag, TracerProtocol the three-variant tag. Numeric fields
are Nat with range side conditions stated where a theorem needs them. -/

/-- Modelled from the spec: Probe record (sequence, ttl); the send
timestamp is scheduler-supplied and plays no role in dispatch logic. -/
structure Probe where
  sequence : Nat
  ttl : Nat
  deriving DecidableEq, Repr

/-- Modelled from the spec: PortDirection tagged variant. The source
variant named None is rendered here by the constructor of that name. -/
inductive PortDirection
  | fixedSrc (port : Nat)
  | fixedDest (port : Nat)
  | fixedBoth (src dst : Nat)
  | none
  deriving DecidableEq, Repr

/-- Modelled from the spec: the per-session protocol choice. -/
inductive TracerProtocol
  | icmp
  | udp
  | tcp
  deriving DecidableEq, Repr

/-- Kind of an io error surfaced by the nonblocking receive. Only the
WouldBlock kind is special-cased by the engine; every other kind is
abstracted by a numeric code. -/
inductive IoErrorKind
  | wouldBlock
  | other (code : Nat)
  deriving DecidableEq, Repr

/-- Modelled from the spec: the error enumeration of section 7.
InvalidPacketSize and IoError are taken verbatim from the dispatch and
receive code; PacketTooShort stands for the req() failure when a packet
view is built over a slice shorter than its header; Unimplemented stands
for the unconditional failure of the source's unimplemented paths (the
port-direction arms and extract_tcp_packet_v6); SlicePanic stands for a
Rust panic caused by slicing a stack buffer beyond its length after a
wrapping usize subtraction. -/
inductive TracerError
  | InvalidPacketSize (n : Nat)
  | IoError (kind : IoErrorKind)
  | PacketTooShort
  | Unimplemented
  | SlicePanic
  deriving DecidableEq, Repr

/-- Modelled from the spec: ProbeResponseData (section 3). The receive
timestamp is wall-clock state and is omitted; sourceAddr is the peer's
IPv6 address as 16 bytes. -/
structure ProbeResponseData where
  sourceAddr : List Nat
  identifier : Nat
  sequence : Nat
  deriving DecidableEq, Repr

/-- Modelled from the spec: ProbeResponse tagged variant (section 3). -/
inductive ProbeResponse
  | timeExceeded (d : ProbeResponseData)
  | destinationUnreachable (d : ProbeResponseData)
  | echoReply (d : ProbeResponseData)
  deriving DecidableEq, Repr

/-- Record of the socket effects of one successful dispatch: the local
port the send socket was bound to, the unicast hop limit set on it, the
transport segment handed to send_to, and the port of the remote socket
address (the source always passes zero). A dispatch that returns an
error produces no record, matching the source, where the error return
happens before any bind, option set or send. -/
structure SendRecord where
  boundPort : Nat
  hopLimit : Nat
  sentBytes : List Nat
  remotePort : Nat
  deriving DecidableEq, Repr

/-! ## Constants (src/tracing/net/ipv6.rs lines 21-31; MAX_PACKET_SIZE is
in channel.rs which is not under src, value 1024 per spec section 6;
minimum packet sizes are the RFC header sizes the spec names). -/

/-- Modelled from the spec: engine-wide maximum packet size. -/
def MAX_PACKET_SIZE : Nat := 1024

/-- Modelled from the spec: minimum size of an IPv6 header. -/
def Ipv6_minimum_packet_size : Nat := 40

/-- Modelled from the spec: minimum size of an ICMPv6 header. -/
def Icmp_minimum_packet_size : Nat := 8

/-- Modelled from the spec: minimum size of a UDP header. -/
def Udp_minimum_packet_size : Nat := 8

/-- The maximum size of UDP packet we allow (ipv6.rs line 22). -/
def MAX_UDP_PACKET_BUF : Nat := MAX_PACKET_SIZE - Ipv6_minimum_packet_size

/-- The maximum size of UDP payload we allow (ipv6.rs line 25). -/
def MAX_UDP_PAYLOAD_BUF : Nat := MAX_UDP_PACKET_BUF - Udp_minimum_packet_size

/-- The maximum size of ICMP packet we allow (ipv6.rs line 28). -/
def MAX_ICMP_PACKET_BUF : Nat := MAX_PACKET_SIZE - Ipv6_minimum_packet_size

/-- The maximum size of ICMP payload we allow (ipv6.rs line 31). -/
def MAX_ICMP_PAYLOAD_BUF : Nat := MAX_ICMP_PACKET_BUF - Icmp_minimum_packet_size

/-- Modulus of the usize machine integer (64-bit target). -/
def USIZE : Nat := 18446744073709551616

/-- Wrapping usize subtraction: release-mode Rust semantics, where a
subtraction below zero wraps modulo 2^64. -/
def usizeSub (a b : Nat) : Nat := (a + (USIZE - b % USIZE)) % USIZE

/-! ## Checksum engine (spec section 4.2; checksum.rs is not under src). -/

/-- Modelled from the spec: the IPv6 pseudo-header bytes, src address
(16 bytes), dst address (16 bytes), upper-layer length (4 bytes BE),
three zero bytes, next-header byte. -/
def pseudoHeader (src dst : List Nat) (len nextHeader : Nat) : List Nat :=
  src ++ dst ++ [len / 16777216 % 256, len / 65536 % 256, hi len, lo len] ++
    [0, 0, 0, nextHeader]

/-- Modelled from the spec: icmp_ipv6_checksum, the one's complement of
the one's-complement sum over pseudo-header (next header 58) plus the
ICMPv6 segment, whose checksum field is zero at the time of the call. -/
def icmp_ipv6_checksum (packet : List Nat) (src_addr dest_addr : List Nat) : Nat :=
  65535 - foldCarry (sumWords (pseudoHeader src_addr dest_addr packet.length 58 ++ packet))

/-- Modelled from the spec: udp_ipv6_checksum, as for ICMPv6 but with
next header 17, and a computed zero is replaced by 0xFFFF. -/
def udp_ipv6_checksum (packet : List Nat) (src_addr dest_addr : List Nat) : Nat :=
  if 65535 - foldCarry (sumWords (pseudoHeader src_addr dest_addr packet.length 17 ++ packet)) = 0
  then 65535
  else 65535 - foldCarry (sumWords (pseudoHeader src_addr dest_addr packet.length 17 ++ packet))

/-! ## Packet builders (ipv6.rs lines 158-200). The byte-view setters of
the codec layer are not under src; per spec section 4.1 each setter
writes its big-endian field at its RFC offset into the caller's zeroed
buffer, so the net result of the builder is the byte list written out
field by field below. -/

/-- Byte image of the EchoRequest segment the source builds: type 128
(EchoRequest), code 0, checksum, identifier, sequence, then payload_size
copies of the payload pattern (offsets per RFC 4443). -/
def echoRequestBytes (identifier sequence ck payload_size pattern : Nat) : List Nat :=
  128 :: 0 :: (be16 ck ++ be16 identifier ++ be16 sequence ++ List.replicate payload_size pattern)

/-- Byte image of the UDP segment the source builds: source port,
destination port, length field, checksum, then payload_size copies of
the payload pattern (offsets per RFC 768). -/
def udpBytes (src_port dest_port len ck : Nat) (payload : List Nat) : List Nat :=
  be16 src_port ++ be16 dest_port ++ be16 len ++ be16 ck ++ payload

/-- Create an ICMP EchoRequest packet (ipv6.rs lines 180-200). The
packet size is the 8-byte header plus the payload size, computed in
wrapping usize arithmetic; slicing the 984-byte stack buffer beyond its
length is a panic (SlicePanic), a slice shorter than the 8-byte header
makes EchoRequestPacket::new fail (PacketTooShort via req), and slicing
the 976-byte payload buffer beyond its length is again a panic. The
checksum is computed over the segment with a zero checksum field and
then stored. -/
def make_echo_request_icmp_packet (src_addr dest_addr : List Nat)
    (identifier sequence payload_size pattern : Nat) : Except TracerError (List Nat) :=
  if (Icmp_minimum_packet_size + payload_size) % USIZE > MAX_ICMP_PACKET_BUF then
    .error .SlicePanic
  else if (Icmp_minimum_packet_size + payload_size) % USIZE < Icmp_minimum_packet_size then
    .error .PacketTooShort
  else if payload_size > MAX_ICMP_PAYLOAD_BUF then
    .error .SlicePanic
  else
    .ok (echoRequestBytes identifier sequence
      (icmp_ipv6_checksum (echoRequestBytes identifier sequence 0 payload_size pattern)
        src_addr dest_addr)
      payload_size pattern)

/-- Create a UdpPacket (ipv6.rs lines 159-177). Same buffer discipline
as the ICMP builder; the length field is the packet size truncated to
u16, and the checksum is computed over the segment with a zero checksum
field and then stored. -/
def make_udp_packet (src_addr dest_addr : List Nat)
    (src_port dest_port payload_size pattern : Nat) : Except TracerError (List Nat) :=
  if (Udp_minimum_packet_size + payload_size) % USIZE > MAX_UDP_PACKET_BUF then
    .error .SlicePanic
  else if (Udp_minimum_packet_size + payload_size) % USIZE < Udp_minimum_packet_size then
    .error .PacketTooShort
  else if payload_size > MAX_UDP_PAYLOAD_BUF then
    .error .SlicePanic
  else
    .ok (udpBytes src_port dest_port ((Udp_minimum_packet_size + payload_size) % USIZE % 65536)
      (udp_ipv6_checksum
        (udpBytes src_port dest_port ((Udp_minimum_packet_size + payload_size) % USIZE % 65536) 0
          (List.replicate payload_size pattern))
        src_addr dest_addr)
      (List.replicate payload_size pattern))

/-- Payload size for an ICMP probe (ipv6.rs lines 202-206): packet size
minus the ICMPv6 header size minus the IPv6 header size, in wrapping
usize arithmetic. -/
def icmp_payload_size (packet_size : Nat) : Nat :=
  usizeSub (usizeSub packet_size Icmp_minimum_packet_size) Ipv6_minimum_packet_size

/-- Payload size for a UDP probe (ipv6.rs lines 208-212). -/
def udp_payload_size (packet_size : Nat) : Nat :=
  usizeSub (usizeSub packet_size Udp_minimum_packet_size) Ipv6_minimum_packet_size

/-! ## Probe dispatch (ipv6.rs lines 66-135). The socket calls (bind,
set_unicast_hops_v6, send_to) are io effects recorded in a SendRecord;
in the source they run only after the packet is built, so an error from
the size check, the port match or the builder leaves the socket
untouched. -/

/-- Dispatch an ICMP probe (ipv6.rs lines 66-95): reject a packet size
above MAX_PACKET_SIZE, build the EchoRequest, then bind to port 0, set
the hop limit to the probe ttl and send the segment to port 0. -/
def dispatch_icmp_probe (probe : Probe) (src_addr dest_addr : List Nat)
    (identifier packet_size payload_pattern : Nat) : Except TracerError SendRecord :=
  if packet_size > MAX_PACKET_SIZE then
    .error (.InvalidPacketSize packet_size)
  else
    exMap
      (fun bytes =>
        { boundPort := 0, hopLimit := probe.ttl, sentBytes := bytes, remotePort := 0 })
      (make_echo_request_icmp_packet src_addr dest_addr identifier probe.sequence
        (icmp_payload_size packet_size) payload_pattern)

/-- Shared tail of the UDP dispatch once the port pair is chosen: build
the segment, then bind to the source port, set the hop limit and send to
remote port 0. -/
def dispatch_udp_send (probe : Probe) (src_addr dest_addr : List Nat)
    (src_port dest_port packet_size payload_pattern : Nat) : Except TracerError SendRecord :=
  exMap
    (fun bytes =>
      { boundPort := src_port, hopLimit := probe.ttl, sentBytes := bytes, remotePort := 0 })
    (make_udp_packet src_addr dest_addr src_port dest_port
      (udp_payload_size packet_size) payload_pattern)

/-- Dispatch a UDP probe (ipv6.rs lines 97-135): reject a packet size
above MAX_PACKET_SIZE, choose the port pair from the port direction
(FixedSrc fixes the source port and sends the sequence as destination
port, FixedDest the converse, and the remaining directions hit the
source's unimplemented arm), then build and send. -/
def dispatch_udp_probe (probe : Probe) (src_addr dest_addr : List Nat)
    (port_direction : PortDirection) (packet_size payload_pattern : Nat) :
    Except TracerError SendRecord :=
  if packet_size > MAX_PACKET_SIZE then
    .error (.InvalidPacketSize packet_size)
  else
    match port_direction with
    | .fixedSrc p =>
        dispatch_udp_send probe src_addr dest_addr p probe.sequence packet_size payload_pattern
    | .fixedDest p =>
        dispatch_udp_send probe src_addr dest_addr probe.sequence p packet_size payload_pattern
    | .fixedBoth _ _ => .error .Unimplemented
    | .none => .error .Unimplemented

/-! ## Receive path (ipv6.rs lines 137-156, 214-341). -/

/-- Outcome of the nonblocking recv_from_into_buf call: either an io
error of some kind, or a delivered datagram together with the peer
socket address (its 16 IPv6 address bytes). On an IPv6 raw socket the
peer address is always an IPv6 socket address, so the source's
as_socket_ipv6 conversion always succeeds. -/
inductive RecvOutcome
  | failure (kind : IoErrorKind)
  | delivered (datagram : List Nat) (peer : List Nat)
  deriving DecidableEq, Repr

/-- Contents of the 1024-byte zero-initialised stack buffer after the
kernel copies the datagram into it (ipv6.rs lines 142-143, 329-341):
the first min(len, 1024) bytes of the datagram followed by the untouched
zero bytes. The count of bytes read is discarded by the source. -/
def recv_buffer (datagram : List Nat) : List Nat :=
  datagram.take MAX_PACKET_SIZE ++ List.replicate (MAX_PACKET_SIZE - datagram.length) 0

/-- Modelled from the spec: bounds-checked view construction shared by
every packet codec (section 4.1); a slice shorter than the minimum
packet size fails, surfaced through req as PacketTooShort (section 7). -/
def packetView (minSize : Nat) (buf : List Nat) : Except TracerError (List Nat) :=
  if buf.length < minSize then .error .PacketTooShort else .ok buf

/-- Modelled from the spec: the ICMPv6 type byte is byte 0 of the
segment (RFC 4443); wire values 1, 3, 129 are DestinationUnreachable,
TimeExceeded and EchoReply. -/
def getIcmpType (buf : List Nat) : Nat := buf.getD 0 0

/-- Modelled from the spec: the payload of an ICMPv6 error packet, the
bytes after its 8-byte header (type, code, checksum, 4 unused bytes). -/
def icmpErrorPayload (buf : List Nat) : List Nat := buf.drop 8

/-- Modelled from the spec: the payload of an IPv6 packet view, the
bytes after the 40-byte header, limited by the declared payload length
field at offset 4. -/
def ipv6Payload (buf : List Nat) : List Nat := (buf.drop 40).take (get16 buf 4)

/-- Inner EchoRequest recovery (ipv6.rs lines 304-311): view the inner
bytes as IPv6, view its payload as an EchoRequest, read identifier
(offset 4) and sequence (offset 6). -/
def extract_echo_request_v6 (ipv6_bytes : List Nat) : Except TracerError (Nat × Nat) :=
  exBind (packetView Ipv6_minimum_packet_size ipv6_bytes) (fun ipv6 =>
    exMap (fun er => (get16 er 4, get16 er 6))
      (packetView Icmp_minimum_packet_size (ipv6Payload ipv6)))

/-- Inner UDP recovery (ipv6.rs lines 313-317): view the inner bytes as
IPv6, view its payload as UDP, read source port (offset 0) and
destination port (offset 2). -/
def extract_udp_packet_v6 (ipv6_bytes : List Nat) : Except TracerError (Nat × Nat) :=
  exBind (packetView Ipv6_minimum_packet_size ipv6_bytes) (fun ipv6 =>
    exMap (fun u => (get16 u 0, get16 u 2))
      (packetView Udp_minimum_packet_size (ipv6Payload ipv6)))

/-- Inner TCP recovery (ipv6.rs lines 319-322): the source body is the
unimplemented macro, an unconditional failure before reading anything. -/
def extract_tcp_packet_v6 (_ipv6_bytes : List Nat) : Except TracerError (Nat × Nat) :=
  .error .Unimplemented

/-- Recover (identifier, sequence) from a TimeExceeded packet (ipv6.rs
lines 252-276): for Icmp read the inner EchoRequest fields; for Udp the
sequence is the inner source port under FixedDest and the inner
destination port otherwise, with identifier 0; for Tcp the inner
recovery fails before the port choice. -/
def extract_time_exceeded_v6 (packet : List Nat) (protocol : TracerProtocol)
    (direction : PortDirection) : Except TracerError (Nat × Nat) :=
  match protocol with
  | .icmp => extract_echo_request_v6 (icmpErrorPayload packet)
  | .udp =>
      exMap
        (fun sd => (0, match direction with
          | .fixedDest _ => sd.1
          | _ => sd.2))
        (extract_udp_packet_v6 (icmpErrorPayload packet))
  | .tcp =>
      exMap
        (fun sd => (0, match direction with
          | .fixedSrc _ => sd.2
          | _ => sd.1))
        (extract_tcp_packet_v6 (icmpErrorPayload packet))

/-- Recover (identifier, sequence) from a DestinationUnreachable packet
(ipv6.rs lines 278-302); the body mirrors the TimeExceeded one. -/
def extract_dest_unreachable_v6 (packet : List Nat) (protocol : TracerProtocol)
    (direction : PortDirection) : Except TracerError (Nat × Nat) :=
  match protocol with
  | .icmp => extract_echo_request_v6 (icmpErrorPayload packet)
  | .udp =>
      exMap
        (fun sd => (0, match direction with
          | .fixedDest _ => sd.1
          | _ => sd.2))
        (extract_udp_packet_v6 (icmpErrorPayload packet))
  | .tcp =>
      exMap
        (fun sd => (0, match direction with
          | .fixedSrc _ => sd.2
          | _ => sd.1))
        (extract_tcp_packet_v6 (icmpErrorPayload packet))

/-- Classify a received ICMPv6 segment and build the response (ipv6.rs
lines 214-250): TimeExceeded (type 3) and DestinationUnreachable
(type 1) go through the inner recovery; EchoReply (type 129) is read
directly under protocol Icmp and dropped under Udp and Tcp; every other
type is dropped. -/
def extract_probe_resp_v6 (protocol : TracerProtocol) (direction : PortDirection)
    (icmp_v6 : List Nat) (src : List Nat) : Except TracerError (Option ProbeResponse) :=
  if getIcmpType icmp_v6 = 3 then
    exBind (packetView Icmp_minimum_packet_size icmp_v6) (fun packet =>
      exMap (fun idseq => some (.timeExceeded ⟨src, idseq.1, idseq.2⟩))
        (extract_time_exceeded_v6 packet protocol direction))
  else if getIcmpType icmp_v6 = 1 then
    exBind (packetView Icmp_minimum_packet_size icmp_v6) (fun packet =>
      exMap (fun idseq => some (.destinationUnreachable ⟨src, idseq.1, idseq.2⟩))
        (extract_dest_unreachable_v6 packet protocol direction))
  else if getIcmpType icmp_v6 = 129 then
    match protocol with
    | .icmp =>
        exMap (fun packet => some (.echoReply ⟨src, get16 packet 4, get16 packet 6⟩))
          (packetView Icmp_minimum_packet_size icmp_v6)
    | .udp => .ok Option.none
    | .tcp => .ok Option.none
  else
    .ok Option.none

/-- Receive one ICMPv6 message (ipv6.rs lines 137-156): on WouldBlock
return Ok(None), on any other io error return IoError; on a delivered
datagram ignore the byte count, view the whole 1024-byte buffer as
ICMPv6 and classify it. -/
def recv_icmp_probe (protocol : TracerProtocol) (direction : PortDirection)
    (outcome : RecvOutcome) : Except TracerError (Option ProbeResponse) :=
  match outcome with
  | .delivered datagram peer =>
      exBind (packetView Icmp_minimum_packet_size (recv_buffer datagram)) (fun icmp_v6 =>
        extract_probe_resp_v6 protocol direction icmp_v6 peer)
  | .failure kind =>
      match kind with
      | .wouldBlock => .ok Option.none
      | k => .error (.IoError k)

/-! ## Synthetic wire images used to state the receive-path claims. -/

/-- Byte image of an inner IPv6 packet: 4 leading version/class/flow
bytes, the 16-bit payload length at offset 4, next header, hop limit,
then source address, destination address and the transport bytes. -/
def innerV6 (a1 a2 a3 a4 plen nextHdr hopLim : Nat)
    (v6src v6dst transport : List Nat) : List Nat :=
  a1 :: a2 :: a3 :: a4 :: hi plen :: lo plen :: nextHdr :: hopLim ::
    (v6src ++ (v6dst ++ transport))

/-- Byte image of an ICMPv6 error datagram: type, code, two checksum
bytes, four unused bytes, then the invoking packet. -/
def icmpErrorDatagram (t code c1 c2 u1 u2 u3 u4 : Nat) (inner : List Nat) : List Nat :=
  t :: code :: c1 :: c2 :: u1 :: u2 :: u3 :: u4 :: inner

/-- Which inner UDP port carries the probe sequence, per the source's
direction match: the source port under FixedDest, else the destination
port (ipv6.rs lines 261-264). -/
def udpSequenceOf (direction : PortDirection) (src_port dest_port : Nat) : Nat :=
  match direction with
  | .fixedDest _ => src_port
  | _ => dest_port

theorem exMap_error (f : α → β) (x : e) : exMap f (.error x : Except e α) = .error x := rfl

theorem exMap_ok (f : α → β) (a : α) : exMap f (.ok a : Except e α) = .ok (f a) := rfl

theorem exBind_error (f : α → Except e β) (x : e) :
    exBind (.error x : Except e α) f = .error x := rfl

theorem exBind_ok (f : α → Except e β) (a : α) : exBind (.ok a : Except e α) f = f a := rfl

/-- A total already below 2^16 folds to itself. -/
theorem foldCarry_small (s : Nat) (h : s < 65536) : foldCarry s = s := by
  unfold foldCarry
  split
  · omega
  · split
    · omega
    · omega

/-- Folding one end-around carry does not change the result, so the
closed form agrees with the iterated carry loop. -/
theorem foldCarry_carry (s : Nat) :
    foldCarry (s % 65536 + s / 65536) = foldCarry s := by
  unfold foldCarry
  have h1 : (s % 65536 + s / 65536) % 65535 = s % 65535 := by omega
  rcases Nat.eq_zero_or_pos s with h0 | h0
  · subst h0; norm_num
  · have h2 : 0 < s % 65536 + s / 65536 := by omega
    rw [h1]
    split
    · omega
    · split <;> split <;> omega

theorem foldCarry_le (s : Nat) : foldCarry s ≤ 65535 := by
  unfold foldCarry
  split
  · omega
  · split
    · omega
    · omega

theorem foldCarry_mod (s : Nat) : foldCarry s % 65535 = s % 65535 := by
  unfold foldCarry
  split
  · omega
  · split
    · omega
    · omega

theorem foldCarry_pos (s : Nat) (h : 0 < s) : 0 < foldCarry s := by
  unfold foldCarry
  split
  · omega
  · split
    · omega
    · omega

theorem foldCarry_eq_zero (s : Nat) (h : s = 0) : foldCarry s = 0 := by
  subst h; rfl

theorem foldCarry_eq_65535 (s : Nat) (h0 : 0 < s) (hm : s % 65535 = 0) :
    foldCarry s = 65535 := by
  have h1 := foldCarry_le s
  have h2 := foldCarry_mod s
  have h3 := foldCarry_pos s h0
  omega

/-- Storing the one's complement of the folded sum makes the folded sum of
the whole message equal to 0xFFFF, i.e. its complement verifies to zero. -/
theorem foldCarry_compl (R : Nat) : foldCarry (R + (65535 - foldCarry R)) = 65535 := by
  rcases Nat.eq_zero_or_pos R with h0 | h0
  · subst h0
    norm_num [foldCarry]
  · have hle := foldCarry_le R
    have hmod := foldCarry_mod R
    have hpos := foldCarry_pos R h0
    apply foldCarry_eq_65535
    · omega
    · omega

/-- Variant for the UDP rule replacing a computed zero checksum by 0xFFFF. -/
theorem foldCarry_compl_udp (R : Nat) :
    foldCarry (R + (if 65535 - foldCarry R = 0 then 65535 else 65535 - foldCarry R)) = 65535 := by
  split
  · have hle := foldCarry_le R
    have hmod := foldCarry_mod R
    have hS : foldCarry R = 65535 := by omega
    have hpos : 0 < R := by
      rcases Nat.eq_zero_or_pos R with h0 | h0
      · subst h0; simp [foldCarry] at hS
      · exact h0
    apply foldCarry_eq_65535
    · omega
    · omega
  · exact foldCarry_compl R

theorem sumWords_append :
    ∀ (xs ys : List Nat), xs.length % 2 = 0 →
      sumWords (xs ++ ys) = sumWords xs + sumWords ys
  | [], ys, _ => by simp [sumWords]
  | [_], _, h => by simp at h
  | a :: b :: rest, ys, h => by
    have h2 : rest.length % 2 = 0 := by
      simp [List.length_cons] at h
      omega
    have ih := sumWords_append rest ys h2
    simp only [List.cons_append, sumWords, List.append_eq]
    rw [ih]
    omega

/-! ## Helper lemmas about the dispatch path. -/

theorem icmp_payload_size_eq (ps : Nat) (h48 : 48 ≤ ps) (h : ps ≤ 1024) :
    icmp_payload_size ps = ps - 48 := by
  simp only [icmp_payload_size, usizeSub, USIZE, Icmp_minimum_packet_size,
    Ipv6_minimum_packet_size]
  omega

theorem udp_payload_size_eq (ps : Nat) (h48 : 48 ≤ ps) (h : ps ≤ 1024) :
    udp_payload_size ps = ps - 48 := by
  simp only [udp_payload_size, usizeSub, USIZE, Udp_minimum_packet_size,
    Ipv6_minimum_packet_size]
  omega

theorem echoRequestBytes_length (identifier sequence ck n pattern : Nat) :
    (echoRequestBytes identifier sequence ck n pattern).length = 8 + n := by
  simp [echoRequestBytes, be16]
  omega

theorem udpBytes_length (sp dp len ck : Nat) (p : List Nat) :
    (udpBytes sp dp len ck p).length = 8 + p.length := by
  simp [udpBytes, be16]
  omega

theorem make_echo_request_icmp_packet_ok (src_addr dest_addr : List Nat)
    (identifier sequence payload_size pattern : Nat) (h : payload_size ≤ 976) :
    make_echo_request_icmp_packet src_addr dest_addr identifier sequence payload_size pattern
      = .ok (echoRequestBytes identifier sequence
          (icmp_ipv6_checksum (echoRequestBytes identifier sequence 0 payload_size pattern)
            src_addr dest_addr)
          payload_size pattern) := by
  have hm : (8 + payload_size) % USIZE = 8 + payload_size := by
    simp only [USIZE]
    omega
  simp only [make_echo_request_icmp_packet, Icmp_minimum_packet_size, MAX_ICMP_PACKET_BUF,
    MAX_ICMP_PAYLOAD_BUF, MAX_PACKET_SIZE, Ipv6_minimum_packet_size, hm]
  rw [if_neg (by omega), if_neg (by omega), if_neg (by omega)]

theorem make_udp_packet_ok (src_addr dest_addr : List Nat)
    (src_port dest_port payload_size pattern : Nat) (h : payload_size ≤ 976) :
    make_udp_packet src_addr dest_addr src_port dest_port payload_size pattern
      = .ok (udpBytes src_port dest_port (8 + payload_size)
          (udp_ipv6_checksum
            (udpBytes src_port dest_port (8 + payload_size) 0
              (List.replicate payload_size pattern))
            src_addr dest_addr)
          (List.replicate payload_size pattern)) := by
  have hm : (8 + payload_size) % USIZE = 8 + payload_size := by
    simp only [USIZE]
    omega
  have hm2 : (8 + payload_size) % 65536 = 8 + payload_size := by omega
  simp only [make_udp_packet, Udp_minimum_packet_size, MAX_UDP_PACKET_BUF,
    MAX_UDP_PAYLOAD_BUF, MAX_PACKET_SIZE, Ipv6_minimum_packet_size, hm, hm2]
  rw [if_neg (by omega), if_neg (by omega), if_neg (by omega)]

theorem dispatch_icmp_probe_ok (probe : Probe) (src_addr dest_addr : List Nat)
    (identifier packet_size pattern : Nat) (h48 : 48 ≤ packet_size)
    (h1024 : packet_size ≤ 1024) :
    dispatch_icmp_probe probe src_addr dest_addr identifier packet_size pattern
      = .ok { boundPort := 0, hopLimit := probe.ttl,
              sentBytes := echoRequestBytes identifier probe.sequence
                (icmp_ipv6_checksum
                  (echoRequestBytes identifier probe.sequence 0 (packet_size - 48) pattern)
                  src_addr dest_addr)
                (packet_size - 48) pattern,
              remotePort := 0 } := by
  simp only [dispatch_icmp_probe, MAX_PACKET_SIZE]
  rw [if_neg (by omega), icmp_payload_size_eq packet_size h48 h1024,
    make_echo_request_icmp_packet_ok src_addr dest_addr identifier probe.sequence
      (packet_size - 48) pattern (by omega), exMap_ok]

theorem dispatch_udp_send_ok (probe : Probe) (src_addr dest_addr : List Nat)
    (src_port dest_port packet_size pattern : Nat) (h48 : 48 ≤ packet_size)
    (h1024 : packet_size ≤ 1024) :
    dispatch_udp_send probe src_addr dest_addr src_port dest_port packet_size pattern
      = .ok { boundPort := src_port, hopLimit := probe.ttl,
              sentBytes := udpBytes src_port dest_port (packet_size - 40)
                (udp_ipv6_checksum
                  (udpBytes src_port dest_port (packet_size - 40) 0
                    (List.replicate (packet_size - 48) pattern))
                  src_addr dest_addr)
                (List.replicate (packet_size - 48) pattern),
              remotePort := 0 } := by
  have hlen : 8 + (packet_size - 48) = packet_size - 40 := by omega
  simp only [dispatch_udp_send]
  rw [udp_payload_size_eq packet_size h48 h1024,
    make_udp_packet_ok src_addr dest_addr src_port dest_port (packet_size - 48) pattern
      (by omega), exMap_ok, hlen]

/-! ## Checksum verification lemmas. -/

theorem pseudoHeader_length (src dst : List Nat) (hs : src.length = 16)
    (hd : dst.length = 16) (len nh : Nat) :
    (pseudoHeader src dst len nh).length = 40 := by
  simp [pseudoHeader, hs, hd]

theorem sumWords_echoRequestBytes (identifier sequence c n pattern : Nat) (hc : c < 65536) :
    sumWords (echoRequestBytes identifier sequence c n pattern)
      = sumWords (echoRequestBytes identifier sequence 0 n pattern) + c := by
  simp only [echoRequestBytes, be16, List.cons_append, List.nil_append, sumWords, hi, lo]
  omega

theorem sumWords_udpBytes (sp dp len c : Nat) (p : List Nat) (hc : c < 65536) :
    sumWords (udpBytes sp dp len c p) = sumWords (udpBytes sp dp len 0 p) + c := by
  simp only [udpBytes, be16, List.cons_append, List.nil_append, sumWords, hi, lo]
  omega

/-- The EchoRequest segment emitted with the stored checksum folds to
0xFFFF under the pseudo-header one's-complement sum. -/
theorem icmp_emitted_folds (src_addr dest_addr : List Nat) (hs : src_addr.length = 16)
    (hd : dest_addr.length = 16) (identifier sequence payload_size pattern : Nat) :
    foldCarry (sumWords (pseudoHeader src_addr dest_addr
        (echoRequestBytes identifier sequence
          (icmp_ipv6_checksum (echoRequestBytes identifier sequence 0 payload_size pattern)
            src_addr dest_addr)
          payload_size pattern).length 58 ++
      echoRequestBytes identifier sequence
        (icmp_ipv6_checksum (echoRequestBytes identifier sequence 0 payload_size pattern)
          src_addr dest_addr)
        payload_size pattern)) = 65535 := by
  have hph : (pseudoHeader src_addr dest_addr (8 + payload_size) 58).length % 2 = 0 := by
    simp [pseudoHeader_length src_addr dest_addr hs hd]
  simp only [icmp_ipv6_checksum, echoRequestBytes_length]
  rw [sumWords_append _ _ hph, sumWords_append _ _ hph]
  rw [sumWords_echoRequestBytes identifier sequence _ payload_size pattern (by omega)]
  rw [← Nat.add_assoc]
  exact foldCarry_compl _

/-- The UDP segment emitted with the stored checksum folds to 0xFFFF
under the pseudo-header one's-complement sum. -/
theorem udp_emitted_folds (src_addr dest_addr : List Nat) (hs : src_addr.length = 16)
    (hd : dest_addr.length = 16) (src_port dest_port len : Nat) (p : List Nat) :
    foldCarry (sumWords (pseudoHeader src_addr dest_addr
        (udpBytes src_port dest_port len
          (udp_ipv6_checksum (udpBytes src_port dest_port len 0 p) src_addr dest_addr)
          p).length 17 ++
      udpBytes src_port dest_port len
        (udp_ipv6_checksum (udpBytes src_port dest_port len 0 p) src_addr dest_addr)
        p)) = 65535 := by
  have hph : (pseudoHeader src_addr dest_addr (8 + p.length) 17).length % 2 = 0 := by
    simp [pseudoHeader_length src_addr dest_addr hs hd]
  simp only [udp_ipv6_checksum, udpBytes_length]
  rw [sumWords_append _ _ hph, sumWords_append _ _ hph]
  rw [sumWords_udpBytes src_port dest_port len _ p (by split <;> omega)]
  rw [← Nat.add_assoc]
  exact foldCarry_compl_udp _

/-! ## Inversion and field-access lemmas. -/

theorem make_echo_request_icmp_packet_inv (src_addr dest_addr : List Nat)
    (identifier sequence payload_size pattern : Nat) (b : List Nat)
    (h : make_echo_request_icmp_packet src_addr dest_addr identifier sequence payload_size
        pattern = .ok b) :
    b = echoRequestBytes identifier sequence
      (icmp_ipv6_checksum (echoRequestBytes identifier sequence 0 payload_size pattern)
        src_addr dest_addr)
      payload_size pattern := by
  simp only [make_echo_request_icmp_packet] at h
  split_ifs at h
  all_goals
    first
    | exact Except.noConfusion h
    | (injection h with h2
       exact h2.symm)

theorem make_udp_packet_inv (src_addr dest_addr : List Nat)
    (src_port dest_port payload_size pattern : Nat) (b : List Nat)
    (h : make_udp_packet src_addr dest_addr src_port dest_port payload_size pattern = .ok b) :
    b = udpBytes src_port dest_port
      ((Udp_minimum_packet_size + payload_size) % USIZE % 65536)
      (udp_ipv6_checksum
        (udpBytes src_port dest_port ((Udp_minimum_packet_size + payload_size) % USIZE % 65536)
          0 (List.replicate payload_size pattern))
        src_addr dest_addr)
      (List.replicate payload_size pattern) := by
  simp only [make_udp_packet] at h
  split_ifs at h
  all_goals
    first
    | exact Except.noConfusion h
    | (injection h with h2
       exact h2.symm)

theorem get16_udpBytes_source (sp dp len ck : Nat) (p : List Nat) (h : sp < 65536) :
    get16 (udpBytes sp dp len ck p) 0 = sp := by
  have h0 : get16 (udpBytes sp dp len ck p) 0 = hi sp * 256 + lo sp := rfl
  rw [h0]
  simp only [hi, lo]
  omega

theorem get16_udpBytes_dest (sp dp len ck : Nat) (p : List Nat) (h : dp < 65536) :
    get16 (udpBytes sp dp len ck p) 2 = dp := by
  have h0 : get16 (udpBytes sp dp len ck p) 2 = hi dp * 256 + lo dp := rfl
  rw [h0]
  simp only [hi, lo]
  omega

theorem get16_udpBytes_len (sp dp len ck : Nat) (p : List Nat) (h : len < 65536) :
    get16 (udpBytes sp dp len ck p) 4 = len := by
  have h0 : get16 (udpBytes sp dp len ck p) 4 = hi len * 256 + lo len := rfl
  rw [h0]
  simp only [hi, lo]
  omega

theorem get16_echoRequestBytes_identifier (identifier sequence ck n pattern : Nat)
    (h : identifier < 65536) :
    get16 (echoRequestBytes identifier sequence ck n pattern) 4 = identifier := by
  have h0 : get16 (echoRequestBytes identifier sequence ck n pattern) 4
      = hi identifier * 256 + lo identifier := rfl
  rw [h0]
  simp only [hi, lo]
  omega

theorem get16_echoRequestBytes_sequence (identifier sequence ck n pattern : Nat)
    (h : sequence < 65536) :
    get16 (echoRequestBytes identifier sequence ck n pattern) 6 = sequence := by
  have h0 : get16 (echoRequestBytes identifier sequence ck n pattern) 6
      = hi sequence * 256 + lo sequence := rfl
  rw [h0]
  simp only [hi, lo]
  omega

theorem dispatch_udp_probe_fixedSrc (probe : Probe) (src_addr dest_addr : List Nat)
    (p packet_size pattern : Nat) (h : ¬ packet_size > MAX_PACKET_SIZE) :
    dispatch_udp_probe probe src_addr dest_addr (.fixedSrc p) packet_size pattern
      = dispatch_udp_send probe src_addr dest_addr p probe.sequence packet_size pattern := by
  simp only [dispatch_udp_probe]
  rw [if_neg h]

theorem dispatch_udp_probe_fixedDest (probe : Probe) (src_addr dest_addr : List Nat)
    (p packet_size pattern : Nat) (h : ¬ packet_size > MAX_PACKET_SIZE) :
    dispatch_udp_probe probe src_addr dest_addr (.fixedDest p) packet_size pattern
      = dispatch_udp_send probe src_addr dest_addr probe.sequence p packet_size pattern := by
  simp only [dispatch_udp_probe]
  rw [if_neg h]

/-! ## Claims about the dispatch path. -/

/-- C1 (counterexample): the claim ranges over every packet_size at most
MAX_PACKET_SIZE, but at packet_size 40 both dispatchers fail (the usize
payload-size subtraction wraps below the 48-byte header total and the
builder rejects the resulting slice), so no transport segment of
packet_size - 40 bytes is built or sent. -/
theorem claim_C1_counterexample :
    dispatch_icmp_probe ⟨1, 64⟩ (List.replicate 16 0) (List.replicate 16 0) 0 40 0
      = .error .PacketTooShort ∧
    dispatch_udp_probe ⟨1, 64⟩ (List.replicate 16 0) (List.replicate 16 0)
      (.fixedSrc 33434) 40 0 = .error .PacketTooShort := by
  exact ⟨rfl, rfl⟩

/-- C1 (amended): for every probe with 48 ≤ packet_size ≤ MAX_PACKET_SIZE,
dispatch_icmp_probe and dispatch_udp_probe build and send a transport
segment of exactly packet_size - 40 bytes: an 8-byte header plus
packet_size - 48 payload bytes, and for UDP the length field equals that
segment size. -/
theorem claim_C1_amended (probe : Probe) (src_addr dest_addr : List Nat)
    (identifier pattern packet_size p : Nat)
    (h48 : 48 ≤ packet_size) (h1024 : packet_size ≤ 1024) :
    (∃ r, dispatch_icmp_probe probe src_addr dest_addr identifier packet_size pattern
        = .ok r ∧
      r.sentBytes.length = packet_size - 40 ∧
      (r.sentBytes.drop 8).length = packet_size - 48) ∧
    (∃ r, dispatch_udp_probe probe src_addr dest_addr (.fixedSrc p) packet_size pattern
        = .ok r ∧
      r.sentBytes.length = packet_size - 40 ∧
      (r.sentBytes.drop 8).length = packet_size - 48 ∧
      get16 r.sentBytes 4 = packet_size - 40) ∧
    (∃ r, dispatch_udp_probe probe src_addr dest_addr (.fixedDest p) packet_size pattern
        = .ok r ∧
      r.sentBytes.length = packet_size - 40 ∧
      (r.sentBytes.drop 8).length = packet_size - 48 ∧
      get16 r.sentBytes 4 = packet_size - 40) := by
  refine ⟨⟨_, dispatch_icmp_probe_ok probe src_addr dest_addr identifier packet_size pattern
      h48 h1024, ?_, ?_⟩, ?_, ?_⟩
  · simp [echoRequestBytes_length]
    omega
  · simp [List.length_drop, echoRequestBytes_length]
  · refine ⟨_, by
      rw [dispatch_udp_probe_fixedSrc probe src_addr dest_addr p packet_size pattern
        (by simp only [MAX_PACKET_SIZE]; omega)]
      exact dispatch_udp_send_ok probe src_addr dest_addr p probe.sequence packet_size
        pattern h48 h1024, ?_, ?_, ?_⟩
    · simp [udpBytes_length]
      omega
    · simp [List.length_drop, udpBytes_length]
    · rw [get16_udpBytes_len _ _ _ _ _ (by omega)]
  · refine ⟨_, by
      rw [dispatch_udp_probe_fixedDest probe src_addr dest_addr p packet_size pattern
        (by simp only [MAX_PACKET_SIZE]; omega)]
      exact dispatch_udp_send_ok probe src_addr dest_addr probe.sequence p packet_size
        pattern h48 h1024, ?_, ?_, ?_⟩
    · simp [udpBytes_length]
      omega
    · simp [List.length_drop, udpBytes_length]
    · rw [get16_udpBytes_len _ _ _ _ _ (by omega)]

/-- C1 (witness for the amended claim) at packet_size 48. -/
theorem claim_C1_witness :
    (∃ r, dispatch_icmp_probe ⟨7, 64⟩ (List.replicate 16 0) (List.replicate 16 0) 4660 48 90
        = .ok r ∧
      r.sentBytes.length = 48 - 40 ∧
      (r.sentBytes.drop 8).length = 48 - 48) ∧
    (∃ r, dispatch_udp_probe ⟨7, 64⟩ (List.replicate 16 0) (List.replicate 16 0)
        (.fixedSrc 33434) 48 90 = .ok r ∧
      r.sentBytes.length = 48 - 40 ∧
      (r.sentBytes.drop 8).length = 48 - 48 ∧
      get16 r.sentBytes 4 = 48 - 40) ∧
    (∃ r, dispatch_udp_probe ⟨7, 64⟩ (List.replicate 16 0) (List.replicate 16 0)
        (.fixedDest 33434) 48 90 = .ok r ∧
      r.sentBytes.length = 48 - 40 ∧
      (r.sentBytes.drop 8).length = 48 - 48 ∧
      get16 r.sentBytes 4 = 48 - 40) :=
  claim_C1_amended ⟨7, 64⟩ (List.replicate 16 0) (List.replicate 16 0) 4660 90 48 33434
    (by decide) (by decide)

/-- C3: a UDP probe dispatched with direction FixedSrc p emits a segment
with source port p and destination port equal to the probe sequence; with
direction FixedDest p it emits source port equal to the probe sequence
and destination port p. -/
theorem claim_C3_udp_ports (probe : Probe) (src_addr dest_addr : List Nat)
    (p pattern packet_size : Nat)
    (h48 : 48 ≤ packet_size) (h1024 : packet_size ≤ 1024)
    (hp : p < 65536) (hseq : probe.sequence < 65536) :
    (∃ r, dispatch_udp_probe probe src_addr dest_addr (.fixedSrc p) packet_size pattern
        = .ok r ∧
      get16 r.sentBytes 0 = p ∧ get16 r.sentBytes 2 = probe.sequence) ∧
    (∃ r, dispatch_udp_probe probe src_addr dest_addr (.fixedDest p) packet_size pattern
        = .ok r ∧
      get16 r.sentBytes 0 = probe.sequence ∧ get16 r.sentBytes 2 = p) := by
  constructor
  · refine ⟨_, by
      rw [dispatch_udp_probe_fixedSrc probe src_addr dest_addr p packet_size pattern
        (by simp only [MAX_PACKET_SIZE]; omega)]
      exact dispatch_udp_send_ok probe src_addr dest_addr p probe.sequence packet_size
        pattern h48 h1024, ?_, ?_⟩
    · exact get16_udpBytes_source _ _ _ _ _ hp
    · exact get16_udpBytes_dest _ _ _ _ _ hseq
  · refine ⟨_, by
      rw [dispatch_udp_probe_fixedDest probe src_addr dest_addr p packet_size pattern
        (by simp only [MAX_PACKET_SIZE]; omega)]
      exact dispatch_udp_send_ok probe src_addr dest_addr probe.sequence p packet_size
        pattern h48 h1024, ?_, ?_⟩
    · exact get16_udpBytes_source _ _ _ _ _ hseq
    · exact get16_udpBytes_dest _ _ _ _ _ hp

/-- C3 (witness) with sequence 5000 and fixed port 33434. -/
theorem claim_C3_witness :
    (∃ r, dispatch_udp_probe ⟨5000, 64⟩ (List.replicate 16 0) (List.replicate 16 0)
        (.fixedSrc 33434) 48 90 = .ok r ∧
      get16 r.sentBytes 0 = 33434 ∧ get16 r.sentBytes 2 = 5000) ∧
    (∃ r, dispatch_udp_probe ⟨5000, 64⟩ (List.replicate 16 0) (List.replicate 16 0)
        (.fixedDest 33434) 48 90 = .ok r ∧
      get16 r.sentBytes 0 = 5000 ∧ get16 r.sentBytes 2 = 33434) :=
  claim_C3_udp_ports ⟨5000, 64⟩ (List.replicate 16 0) (List.replicate 16 0) 33434 90 48
    (by decide) (by decide) (by decide) (by decide)

/-- C4: both dispatchers succeed at packet_size MAX_PACKET_SIZE, and for
every u16 packet_size above it they fail with InvalidPacketSize carrying
that size; the failing check runs before the port match and before any
packet is built, so the error return carries no send record and the
socket is untouched. -/
theorem claim_C4_boundary (probe : Probe) (src_addr dest_addr : List Nat)
    (identifier pattern p n : Nat) (dir : PortDirection)
    (hn : 1024 < n) (hn2 : n < 65536) :
    (∃ r, dispatch_icmp_probe probe src_addr dest_addr identifier 1024 pattern = .ok r) ∧
    (∃ r, dispatch_udp_probe probe src_addr dest_addr (.fixedSrc p) 1024 pattern = .ok r) ∧
    (∃ r, dispatch_udp_probe probe src_addr dest_addr (.fixedDest p) 1024 pattern = .ok r) ∧
    dispatch_icmp_probe probe src_addr dest_addr identifier n pattern
      = .error (.InvalidPacketSize n) ∧
    dispatch_udp_probe probe src_addr dest_addr dir n pattern
      = .error (.InvalidPacketSize n) := by
  refine ⟨⟨_, dispatch_icmp_probe_ok probe src_addr dest_addr identifier 1024 pattern
      (by omega) (by omega)⟩,
    ⟨_, by
      rw [dispatch_udp_probe_fixedSrc probe src_addr dest_addr p 1024 pattern
        (by simp only [MAX_PACKET_SIZE]; omega)]
      exact dispatch_udp_send_ok probe src_addr dest_addr p probe.sequence 1024 pattern
        (by omega) (by omega)⟩,
    ⟨_, by
      rw [dispatch_udp_probe_fixedDest probe src_addr dest_addr p 1024 pattern
        (by simp only [MAX_PACKET_SIZE]; omega)]
      exact dispatch_udp_send_ok probe src_addr dest_addr probe.sequence p 1024 pattern
        (by omega) (by omega)⟩, ?_, ?_⟩
  · simp only [dispatch_icmp_probe, MAX_PACKET_SIZE]
    rw [if_pos (by omega)]
  · simp only [dispatch_udp_probe, MAX_PACKET_SIZE]
    rw [if_pos (by omega)]

/-- C4 (witness) with the oversize value 2048 of the spec scenario. -/
theorem claim_C4_witness :
    (∃ r, dispatch_icmp_probe ⟨7, 64⟩ (List.replicate 16 0) (List.replicate 16 0) 4660 1024 90
        = .ok r) ∧
    (∃ r, dispatch_udp_probe ⟨7, 64⟩ (List.replicate 16 0) (List.replicate 16 0)
        (.fixedSrc 33434) 1024 90 = .ok r) ∧
    (∃ r, dispatch_udp_probe ⟨7, 64⟩ (List.replicate 16 0) (List.replicate 16 0)
        (.fixedDest 33434) 1024 90 = .ok r) ∧
    dispatch_icmp_probe ⟨7, 64⟩ (List.replicate 16 0) (List.replicate 16 0) 4660 2048 90
      = .error (.InvalidPacketSize 2048) ∧
    dispatch_udp_probe ⟨7, 64⟩ (List.replicate 16 0) (List.replicate 16 0)
      (.fixedDest 33434) 2048 90 = .error (.InvalidPacketSize 2048) :=
  claim_C4_boundary ⟨7, 64⟩ (List.replicate 16 0) (List.replicate 16 0) 4660 90 33434 2048
    (.fixedDest 33434) (by decide) (by decide)

/-- C6: every ICMP probe emitted by dispatch_icmp_probe is an EchoRequest
with type byte 128 (EchoRequest), code 0, identifier equal to the session
TraceId, sequence equal to the probe sequence, and a payload of
payload_size copies of the payload pattern. -/
theorem claim_C6_echo_fields (probe : Probe) (src_addr dest_addr : List Nat)
    (identifier pattern packet_size : Nat)
    (h48 : 48 ≤ packet_size) (h1024 : packet_size ≤ 1024)
    (hid : identifier < 65536) (hseq : probe.sequence < 65536) :
    ∃ r, dispatch_icmp_probe probe src_addr dest_addr identifier packet_size pattern
        = .ok r ∧
      r.sentBytes.getD 0 0 = 128 ∧
      r.sentBytes.getD 1 0 = 0 ∧
      get16 r.sentBytes 4 = identifier ∧
      get16 r.sentBytes 6 = probe.sequence ∧
      r.sentBytes.drop 8 = List.replicate (packet_size - 48) pattern := by
  refine ⟨_, dispatch_icmp_probe_ok probe src_addr dest_addr identifier packet_size pattern
      h48 h1024, rfl, rfl, ?_, ?_, rfl⟩
  · exact get16_echoRequestBytes_identifier _ _ _ _ _ hid
  · exact get16_echoRequestBytes_sequence _ _ _ _ _ hseq

/-- C6 (witness) with TraceId 4660, sequence 7, pattern 90. -/
theorem claim_C6_witness :
    ∃ r, dispatch_icmp_probe ⟨7, 64⟩ (List.replicate 16 0) (List.replicate 16 0) 4660 80 90
        = .ok r ∧
      r.sentBytes.getD 0 0 = 128 ∧
      r.sentBytes.getD 1 0 = 0 ∧
      get16 r.sentBytes 4 = 4660 ∧
      get16 r.sentBytes 6 = 7 ∧
      r.sentBytes.drop 8 = List.replicate (80 - 48) 90 :=
  claim_C6_echo_fields ⟨7, 64⟩ (List.replicate 16 0) (List.replicate 16 0) 4660 90 80
    (by decide) (by decide) (by decide) (by decide)

/-- C8: a UDP probe dispatched with direction FixedBoth or None hits the
source's unimplemented arm, failing before any packet is built or sent. -/
theorem claim_C8_unsupported_directions (probe : Probe) (src_addr dest_addr : List Nat)
    (a b packet_size pattern : Nat) (h : packet_size ≤ MAX_PACKET_SIZE) :
    dispatch_udp_probe probe src_addr dest_addr (.fixedBoth a b) packet_size pattern
      = .error .Unimplemented ∧
    dispatch_udp_probe probe src_addr dest_addr .none packet_size pattern
      = .error .Unimplemented := by
  constructor <;>
    (simp only [dispatch_udp_probe]
     rw [if_neg (by omega)])

/-- C8 (witness) at packet_size 48. -/
theorem claim_C8_witness :
    dispatch_udp_probe ⟨7, 64⟩ (List.replicate 16 0) (List.replicate 16 0)
      (.fixedBoth 33434 5000) 48 90 = .error .Unimplemented ∧
    dispatch_udp_probe ⟨7, 64⟩ (List.replicate 16 0) (List.replicate 16 0)
      PortDirection.none 48 90 = .error .Unimplemented :=
  claim_C8_unsupported_directions ⟨7, 64⟩ (List.replicate 16 0) (List.replicate 16 0)
    33434 5000 48 90 (by decide)

/-- C5: every emitted packet carries a valid IPv6 pseudo-header checksum:
for all source and destination addresses and all field and payload
choices, the complement of the one's-complement sum recomputed over
pseudo-header plus emitted segment is zero, for the EchoRequest segments
of the ICMP builder and the UDP segments of the UDP builder alike. -/
theorem claim_C5_emitted_checksums_verify (src_addr dest_addr : List Nat)
    (hs : src_addr.length = 16) (hd : dest_addr.length = 16)
    (identifier sequence src_port dest_port ni nu pi pu : Nat) (bi bu : List Nat)
    (hbi : make_echo_request_icmp_packet src_addr dest_addr identifier sequence ni pi
        = .ok bi)
    (hbu : make_udp_packet src_addr dest_addr src_port dest_port nu pu = .ok bu) :
    65535 - foldCarry (sumWords (pseudoHeader src_addr dest_addr bi.length 58 ++ bi)) = 0 ∧
    65535 - foldCarry (sumWords (pseudoHeader src_addr dest_addr bu.length 17 ++ bu)) = 0 := by
  obtain rfl := make_echo_request_icmp_packet_inv _ _ _ _ _ _ _ hbi
  obtain rfl := make_udp_packet_inv _ _ _ _ _ _ _ hbu
  constructor
  · have h := icmp_emitted_folds src_addr dest_addr hs hd identifier sequence ni pi
    omega
  · have h := udp_emitted_folds src_addr dest_addr hs hd src_port dest_port
      ((Udp_minimum_packet_size + nu) % USIZE % 65536) (List.replicate nu pu)
    omega

/-- C5 (witness): concrete ICMP and UDP segments with zero payloads over
the all-zero address pair both verify. -/
theorem claim_C5_witness :
    65535 - foldCarry (sumWords (pseudoHeader (List.replicate 16 0) (List.replicate 16 0)
        (echoRequestBytes 4660 7
          (icmp_ipv6_checksum (echoRequestBytes 4660 7 0 0 0)
            (List.replicate 16 0) (List.replicate 16 0)) 0 0).length 58 ++
      echoRequestBytes 4660 7
        (icmp_ipv6_checksum (echoRequestBytes 4660 7 0 0 0)
          (List.replicate 16 0) (List.replicate 16 0)) 0 0)) = 0 ∧
    65535 - foldCarry (sumWords (pseudoHeader (List.replicate 16 0) (List.replicate 16 0)
        (udpBytes 33434 5000 8
          (udp_ipv6_checksum (udpBytes 33434 5000 8 0 (List.replicate 0 0))
            (List.replicate 16 0) (List.replicate 16 0)) (List.replicate 0 0)).length 17 ++
      udpBytes 33434 5000 8
        (udp_ipv6_checksum (udpBytes 33434 5000 8 0 (List.replicate 0 0))
          (List.replicate 16 0) (List.replicate 16 0)) (List.replicate 0 0))) = 0 :=
  claim_C5_emitted_checksums_verify (List.replicate 16 0) (List.replicate 16 0)
    (by decide) (by decide) 4660 7 33434 5000 0 0 0 0 _ _ (by rfl) (by rfl)

/-! ## Receive-path helper lemmas. -/

theorem recv_buffer_length (datagram : List Nat) : (recv_buffer datagram).length = 1024 := by
  simp [recv_buffer, MAX_PACKET_SIZE]
  omega

theorem recv_buffer_eq (datagram : List Nat) (h : datagram.length ≤ 1024) :
    recv_buffer datagram
      = datagram ++ List.replicate (1024 - datagram.length) 0 := by
  simp only [recv_buffer, MAX_PACKET_SIZE]
  rw [List.take_of_length_le h]

theorem packetView_ok (minSize : Nat) (buf : List Nat) (h : minSize ≤ buf.length) :
    packetView minSize buf = .ok buf := by
  simp only [packetView]
  rw [if_neg (by omega)]

theorem recv_delivered (protocol : TracerProtocol) (direction : PortDirection)
    (datagram peer : List Nat) :
    recv_icmp_probe protocol direction (.delivered datagram peer)
      = extract_probe_resp_v6 protocol direction (recv_buffer datagram) peer := by
  simp only [recv_icmp_probe]
  rw [packetView_ok _ _ (by rw [recv_buffer_length]; decide), exBind_ok]

/-- Error-type branch of the classifier under protocol Tcp: the inner
TCP recovery is unimplemented, so the whole classification fails with
Unimplemented before any port is read. -/
theorem extract_probe_resp_tcp_err (direction : PortDirection) (buf src : List Nat)
    (hlen : 8 ≤ buf.length)
    (h : getIcmpType buf = 3 ∨ getIcmpType buf = 1) :
    extract_probe_resp_v6 .tcp direction buf src = .error .Unimplemented := by
  have hlen2 : Icmp_minimum_packet_size ≤ buf.length := hlen
  rcases h with h | h
  · simp only [extract_probe_resp_v6]
    rw [if_pos h, packetView_ok _ _ hlen2, exBind_ok]
    rfl
  · simp only [extract_probe_resp_v6]
    rw [if_neg (by omega), if_pos h, packetView_ok _ _ hlen2, exBind_ok]
    rfl

/-- C9 (amended): under protocol Tcp every TimeExceeded or
DestinationUnreachable message makes recv_icmp_probe fail with the
unimplemented TCP extraction before any sequence is computed, for every
port direction. -/
theorem claim_C9_amended (direction : PortDirection) (datagram peer : List Nat)
    (h : getIcmpType (recv_buffer datagram) = 3 ∨ getIcmpType (recv_buffer datagram) = 1) :
    recv_icmp_probe .tcp direction (.delivered datagram peer) = .error .Unimplemented := by
  rw [recv_delivered]
  exact extract_probe_resp_tcp_err direction _ peer (by rw [recv_buffer_length]; omega) h

/-- C9 (witness for the amended claim): a concrete TimeExceeded datagram
under Tcp with direction FixedSrc 80. -/
theorem claim_C9_witness :
    recv_icmp_probe .tcp (.fixedSrc 80)
      (.delivered ([3, 0, 0, 0, 0, 0, 0, 0, 96, 0, 0, 0, 0, 8, 6, 1]
        ++ List.replicate 32 7 ++ [0, 81, 0, 82, 0, 0, 0, 0]) (List.replicate 16 9))
      = .error .Unimplemented :=
  claim_C9_amended (.fixedSrc 80)
    ([3, 0, 0, 0, 0, 0, 0, 0, 96, 0, 0, 0, 0, 8, 6, 1]
      ++ List.replicate 32 7 ++ [0, 81, 0, 82, 0, 0, 0, 0]) (List.replicate 16 9)
    (Or.inl rfl)

/-- C9 (counterexample): on a concrete TimeExceeded datagram whose inner
TCP segment has source port 81, under protocol Tcp and direction
FixedSrc, recv_icmp_probe does not return the inner source port as the
claim states: it returns the Unimplemented failure, because the inner
TCP recovery is the source's unimplemented macro. -/
theorem claim_C9_counterexample :
    recv_icmp_probe .tcp (.fixedSrc 80)
      (.delivered ([3, 0, 0, 0, 0, 0, 0, 0, 96, 0, 0, 0, 0, 8, 6, 1]
        ++ List.replicate 32 7 ++ [0, 81, 0, 82, 0, 0, 0, 0]) (List.replicate 16 9))
      ≠ .ok (some (.timeExceeded ⟨List.replicate 16 9, 0, 81⟩)) := by
  have h : recv_icmp_probe .tcp (.fixedSrc 80)
      (.delivered ([3, 0, 0, 0, 0, 0, 0, 0, 96, 0, 0, 0, 0, 8, 6, 1]
        ++ List.replicate 32 7 ++ [0, 81, 0, 82, 0, 0, 0, 0]) (List.replicate 16 9))
      = .error .Unimplemented := by
    rw [recv_delivered]
    exact extract_probe_resp_tcp_err _ _ _ (by rw [recv_buffer_length]; omega) (Or.inl rfl)
  rw [h]
  intro hcon
  exact Except.noConfusion hcon

set_option maxRecDepth 100000 in
/-- C10: the count of received bytes is discarded and the outer ICMPv6
view is built over the whole 1024-byte zero-initialised buffer, so the
outer view construction succeeds for every datagram, however short; an
empty datagram is classified from the zero fill as type 0 and dropped as
None; and a truncated datagram (a single type byte 3) is classified as
TimeExceeded from the zero-filled remainder, whose inner parse then
fails per packet. -/
theorem claim_C10_outer_view_total :
    (∀ datagram : List Nat,
      packetView Icmp_minimum_packet_size (recv_buffer datagram)
        = .ok (recv_buffer datagram)) ∧
    (∀ (protocol : TracerProtocol) (direction : PortDirection) (peer : List Nat),
      recv_icmp_probe protocol direction (.delivered [] peer) = .ok Option.none) ∧
    (∀ (direction : PortDirection) (peer : List Nat),
      recv_icmp_probe .icmp direction (.delivered [3] peer) = .error .PacketTooShort) :=
  ⟨fun datagram => packetView_ok _ _ (by rw [recv_buffer_length]; decide),
   fun _ _ _ => rfl,
   fun _ _ => rfl⟩

/-- C7: recv_icmp_probe returns Ok None with no error exactly on
WouldBlock, on an ICMPv6 type other than TimeExceeded (3),
DestinationUnreachable (1) and EchoReply (129), or on an EchoReply under
protocol Udp or Tcp; and every receive error other than WouldBlock is
surfaced as IoError. -/
theorem claim_C7_none_exactly (protocol : TracerProtocol) (direction : PortDirection)
    (datagram peer : List Nat) (code : Nat) :
    recv_icmp_probe protocol direction (.failure .wouldBlock) = .ok Option.none ∧
    recv_icmp_probe protocol direction (.failure (.other code))
      = .error (.IoError (.other code)) ∧
    (recv_icmp_probe protocol direction (.delivered datagram peer) = .ok Option.none ↔
      ((getIcmpType (recv_buffer datagram) ≠ 3 ∧ getIcmpType (recv_buffer datagram) ≠ 1 ∧
        getIcmpType (recv_buffer datagram) ≠ 129) ∨
       (getIcmpType (recv_buffer datagram) = 129 ∧ protocol ≠ .icmp))) := by
  refine ⟨rfl, rfl, ?_⟩
  rw [recv_delivered]
  have hlen : Icmp_minimum_packet_size ≤ (recv_buffer datagram).length := by
    rw [recv_buffer_length]
    decide
  by_cases h3 : getIcmpType (recv_buffer datagram) = 3
  · simp only [extract_probe_resp_v6]
    rw [if_pos h3, packetView_ok _ _ hlen, exBind_ok]
    constructor
    · intro hL
      exfalso
      rcases hE : extract_time_exceeded_v6 (recv_buffer datagram) protocol direction
        with e | pair
      · rw [hE, exMap_error] at hL
        exact Except.noConfusion hL
      · rw [hE, exMap_ok] at hL
        injection hL with h2
        exact Option.noConfusion h2
    · intro hR
      exfalso
      rcases hR with ⟨hne, _, _⟩ | ⟨h129, _⟩
      · exact hne h3
      · omega
  · by_cases h1 : getIcmpType (recv_buffer datagram) = 1
    · simp only [extract_probe_resp_v6]
      rw [if_neg h3, if_pos h1, packetView_ok _ _ hlen, exBind_ok]
      constructor
      · intro hL
        exfalso
        rcases hE : extract_dest_unreachable_v6 (recv_buffer datagram) protocol direction
          with e | pair
        · rw [hE, exMap_error] at hL
          exact Except.noConfusion hL
        · rw [hE, exMap_ok] at hL
          injection hL with h2
          exact Option.noConfusion h2
      · intro hR
        exfalso
        rcases hR with ⟨_, hne, _⟩ | ⟨h129, _⟩
        · exact hne h1
        · omega
    · by_cases h129 : getIcmpType (recv_buffer datagram) = 129
      · simp only [extract_probe_resp_v6]
        rw [if_neg h3, if_neg h1, if_pos h129]
        cases protocol with
        | icmp =>
            rw [packetView_ok _ _ hlen, exMap_ok]
            constructor
            · intro hL
              exfalso
              injection hL with h2
              exact Option.noConfusion h2
            · intro hR
              exfalso
              rcases hR with ⟨_, _, hne⟩ | ⟨_, hnp⟩
              · exact hne h129
              · exact hnp rfl
        | udp =>
            constructor
            · intro _
              exact Or.inr ⟨h129, fun hcon => TracerProtocol.noConfusion hcon⟩
            · intro _
              rfl
        | tcp =>
            constructor
            · intro _
              exact Or.inr ⟨h129, fun hcon => TracerProtocol.noConfusion hcon⟩
            · intro _
              rfl
      · simp only [extract_probe_resp_v6]
        rw [if_neg h3, if_neg h1, if_neg h129]
        constructor
        · intro _
          exact Or.inl ⟨h3, h1, h129⟩
        · intro _
          rfl

/-- Inner UDP recovery on a well-formed inner IPv6 image followed by any
padding: the declared payload length selects at least the 8 UDP header
bytes, and the two ports are read back. -/
theorem extract_udp_packet_v6_innerV6
    (a1 a2 a3 a4 plen nextHdr hopLim sp dp : Nat)
    (v6src v6dst rest pad : List Nat)
    (hs : v6src.length = 16) (hd : v6dst.length = 16)
    (hplen8 : 8 ≤ plen) (hplen : plen < 65536)
    (hsp : sp < 65536) (hdp : dp < 65536)
    (hrest : plen ≤ 4 + rest.length + pad.length) :
    extract_udp_packet_v6
        (innerV6 a1 a2 a3 a4 plen nextHdr hopLim v6src v6dst
          (be16 sp ++ be16 dp ++ rest) ++ pad)
      = .ok (sp, dp) := by
  have hXeq : innerV6 a1 a2 a3 a4 plen nextHdr hopLim v6src v6dst
        (be16 sp ++ be16 dp ++ rest) ++ pad
      = ([a1, a2, a3, a4, hi plen, lo plen, nextHdr, hopLim] ++ v6src ++ v6dst)
        ++ (hi sp :: lo sp :: hi dp :: lo dp :: (rest ++ pad)) := by
    simp [innerV6, be16, List.append_assoc]
  have hlen40 : ([a1, a2, a3, a4, hi plen, lo plen, nextHdr, hopLim] ++ v6src ++ v6dst).length
      = 40 := by
    simp [hs, hd]
  have hXlen : Ipv6_minimum_packet_size
      ≤ (innerV6 a1 a2 a3 a4 plen nextHdr hopLim v6src v6dst
          (be16 sp ++ be16 dp ++ rest) ++ pad).length := by
    rw [hXeq, List.length_append, hlen40]
    simp [Ipv6_minimum_packet_size]
  have hget : get16 (innerV6 a1 a2 a3 a4 plen nextHdr hopLim v6src v6dst
        (be16 sp ++ be16 dp ++ rest) ++ pad) 4 = plen := by
    have h0 : get16 (innerV6 a1 a2 a3 a4 plen nextHdr hopLim v6src v6dst
          (be16 sp ++ be16 dp ++ rest) ++ pad) 4 = hi plen * 256 + lo plen := rfl
    rw [h0]
    simp only [hi, lo]
    omega
  have hdrop : List.drop 40 (innerV6 a1 a2 a3 a4 plen nextHdr hopLim v6src v6dst
        (be16 sp ++ be16 dp ++ rest) ++ pad)
      = hi sp :: lo sp :: hi dp :: lo dp :: (rest ++ pad) := by
    rw [hXeq]
    exact List.drop_left' hlen40
  obtain ⟨m, hm⟩ : ∃ m, plen = m + 8 := ⟨plen - 8, by omega⟩
  have hpay : ipv6Payload (innerV6 a1 a2 a3 a4 plen nextHdr hopLim v6src v6dst
        (be16 sp ++ be16 dp ++ rest) ++ pad)
      = hi sp :: lo sp :: hi dp :: lo dp :: List.take (m + 4) (rest ++ pad) := by
    unfold ipv6Payload
    rw [hget, hdrop, hm]
    rfl
  have hpaylen : Udp_minimum_packet_size
      ≤ (hi sp :: lo sp :: hi dp :: lo dp :: List.take (m + 4) (rest ++ pad)).length := by
    simp [List.length_take, List.length_append, Udp_minimum_packet_size]
    omega
  have e1 : hi sp * 256 + lo sp = sp := by
    simp only [hi, lo]
    omega
  have e2 : hi dp * 256 + lo dp = dp := by
    simp only [hi, lo]
    omega
  unfold extract_udp_packet_v6
  rw [packetView_ok _ _ hXlen, exBind_ok, hpay, packetView_ok _ _ hpaylen, exMap_ok]
  have hg0 : get16 (hi sp :: lo sp :: hi dp :: lo dp :: List.take (m + 4) (rest ++ pad)) 0
      = hi sp * 256 + lo sp := rfl
  have hg2 : get16 (hi sp :: lo sp :: hi dp :: lo dp :: List.take (m + 4) (rest ++ pad)) 2
      = hi dp * 256 + lo dp := rfl
  rw [hg0, hg2, e1, e2]

/-- C2: for every ICMPv6 TimeExceeded or DestinationUnreachable message
under protocol Udp, recv_icmp_probe returns identifier 0 and, as the
sequence, the inner UDP source port when the direction is FixedDest and
the inner UDP destination port otherwise. -/
theorem claim_C2_udp_correlation
    (code c1 c2 u1 u2 u3 u4 a1 a2 a3 a4 nextHdr hopLim sp dp plen : Nat)
    (v6src v6dst tr peer : List Nat) (direction : PortDirection)
    (hs : v6src.length = 16) (hd : v6dst.length = 16)
    (hplen8 : 8 ≤ plen) (hplen976 : plen ≤ 976)
    (hsp : sp < 65536) (hdp : dp < 65536)
    (htr : tr.length ≤ 972) :
    recv_icmp_probe .udp direction
        (.delivered (icmpErrorDatagram 3 code c1 c2 u1 u2 u3 u4
          (innerV6 a1 a2 a3 a4 plen nextHdr hopLim v6src v6dst
            (be16 sp ++ be16 dp ++ tr))) peer)
      = .ok (some (.timeExceeded ⟨peer, 0, udpSequenceOf direction sp dp⟩)) ∧
    recv_icmp_probe .udp direction
        (.delivered (icmpErrorDatagram 1 code c1 c2 u1 u2 u3 u4
          (innerV6 a1 a2 a3 a4 plen nextHdr hopLim v6src v6dst
            (be16 sp ++ be16 dp ++ tr))) peer)
      = .ok (some (.destinationUnreachable ⟨peer, 0, udpSequenceOf direction sp dp⟩)) := by
  have hdlen : ∀ t : Nat, (icmpErrorDatagram t code c1 c2 u1 u2 u3 u4
      (innerV6 a1 a2 a3 a4 plen nextHdr hopLim v6src v6dst
        (be16 sp ++ be16 dp ++ tr))).length = 52 + tr.length := by
    intro t
    simp [icmpErrorDatagram, innerV6, be16, hs, hd]
    omega
  have hbuf : ∀ t : Nat, recv_buffer (icmpErrorDatagram t code c1 c2 u1 u2 u3 u4
        (innerV6 a1 a2 a3 a4 plen nextHdr hopLim v6src v6dst
          (be16 sp ++ be16 dp ++ tr)))
      = icmpErrorDatagram t code c1 c2 u1 u2 u3 u4
          (innerV6 a1 a2 a3 a4 plen nextHdr hopLim v6src v6dst
            (be16 sp ++ be16 dp ++ tr))
        ++ List.replicate (1024 - (52 + tr.length)) 0 := by
    intro t
    rw [recv_buffer_eq _ (by rw [hdlen]; omega), hdlen]
  have hextract : extract_udp_packet_v6
      (innerV6 a1 a2 a3 a4 plen nextHdr hopLim v6src v6dst (be16 sp ++ be16 dp ++ tr)
        ++ List.replicate (1024 - (52 + tr.length)) 0) = .ok (sp, dp) := by
    refine extract_udp_packet_v6_innerV6 a1 a2 a3 a4 plen nextHdr hopLim sp dp
      v6src v6dst tr (List.replicate (1024 - (52 + tr.length)) 0) hs hd hplen8
      (by omega) hsp hdp ?_
    rw [List.length_replicate]
    omega
  have hblen : ∀ t : Nat, Icmp_minimum_packet_size
      ≤ (recv_buffer (icmpErrorDatagram t code c1 c2 u1 u2 u3 u4
          (innerV6 a1 a2 a3 a4 plen nextHdr hopLim v6src v6dst
            (be16 sp ++ be16 dp ++ tr)))).length := by
    intro t
    rw [recv_buffer_length]
    decide
  have htype : ∀ t : Nat, getIcmpType (recv_buffer (icmpErrorDatagram t code c1 c2 u1 u2 u3 u4
      (innerV6 a1 a2 a3 a4 plen nextHdr hopLim v6src v6dst
        (be16 sp ++ be16 dp ++ tr)))) = t := by
    intro t
    rw [hbuf]
    rfl
  have hpayload : ∀ t : Nat, icmpErrorPayload (recv_buffer (icmpErrorDatagram t code c1 c2 u1 u2 u3 u4
      (innerV6 a1 a2 a3 a4 plen nextHdr hopLim v6src v6dst
        (be16 sp ++ be16 dp ++ tr))))
      = innerV6 a1 a2 a3 a4 plen nextHdr hopLim v6src v6dst (be16 sp ++ be16 dp ++ tr)
        ++ List.replicate (1024 - (52 + tr.length)) 0 := by
    intro t
    rw [hbuf]
    rfl
  constructor
  · rw [recv_delivered]
    simp only [extract_probe_resp_v6]
    rw [if_pos (htype 3), packetView_ok _ _ (hblen 3), exBind_ok]
    simp only [extract_time_exceeded_v6]
    rw [hpayload 3, hextract, exMap_ok, exMap_ok]
    cases direction <;> rfl
  · rw [recv_delivered]
    simp only [extract_probe_resp_v6]
    rw [if_neg (by rw [htype 1]; omega), if_pos (htype 1), packetView_ok _ _ (hblen 1),
      exBind_ok]
    simp only [extract_dest_unreachable_v6]
    rw [hpayload 1, hextract, exMap_ok, exMap_ok]
    cases direction <;> rfl

/-- C2 (witness): the spec's scenarios 2 and 3, sequence 5000 and fixed
port 33434, under both directions and both message types. -/
theorem claim_C2_witness :
    (recv_icmp_probe .udp (.fixedDest 33434)
        (.delivered (icmpErrorDatagram 3 0 0 0 0 0 0 0
          (innerV6 96 0 0 0 8 17 1 (List.replicate 16 7) (List.replicate 16 7)
            (be16 5000 ++ be16 33434 ++ []))) (List.replicate 16 9))
      = .ok (some (.timeExceeded ⟨List.replicate 16 9, 0,
          udpSequenceOf (.fixedDest 33434) 5000 33434⟩)) ∧
    recv_icmp_probe .udp (.fixedDest 33434)
        (.delivered (icmpErrorDatagram 1 0 0 0 0 0 0 0
          (innerV6 96 0 0 0 8 17 1 (List.replicate 16 7) (List.replicate 16 7)
            (be16 5000 ++ be16 33434 ++ []))) (List.replicate 16 9))
      = .ok (some (.destinationUnreachable ⟨List.replicate 16 9, 0,
          udpSequenceOf (.fixedDest 33434) 5000 33434⟩))) ∧
    (recv_icmp_probe .udp (.fixedSrc 33434)
        (.delivered (icmpErrorDatagram 3 0 0 0 0 0 0 0
          (innerV6 96 0 0 0 8 17 1 (List.replicate 16 7) (List.replicate 16 7)
            (be16 33434 ++ be16 5000 ++ []))) (List.replicate 16 9))
      = .ok (some (.timeExceeded ⟨List.replicate 16 9, 0,
          udpSequenceOf (.fixedSrc 33434) 33434 5000⟩)) ∧
    recv_icmp_probe .udp (.fixedSrc 33434)
        (.delivered (icmpErrorDatagram 1 0 0 0 0 0 0 0
          (innerV6 96 0 0 0 8 17 1 (List.replicate 16 7) (List.replicate 16 7)
            (be16 33434 ++ be16 5000 ++ []))) (List.replicate 16 9))
      = .ok (some (.destinationUnreachable ⟨List.replicate 16 9, 0,
          udpSequenceOf (.fixedSrc 33434) 33434 5000⟩))) :=
  ⟨claim_C2_udp_correlation 0 0 0 0 0 0 0 96 0 0 0 17 1 5000 33434 8
    (List.replicate 16 7) (List.replicate 16 7) [] (List.replicate 16 9)
    (.fixedDest 33434) (by decide) (by decide) (by decide) (by decide) (by decide)
    (by decide) (by decide),
   claim_C2_udp_correlation 0 0 0 0 0 0 0 96 0 0 0 17 1 33434 5000 8
    (List.replicate 16 7) (List.replicate 16 7) [] (List.replicate 16 9)
    (.fixedSrc 33434) (by decide) (by decide) (by decide) (by decide) (by decide)
    (by decide) (by decide)⟩

end TrippyIpv6
